import Mathlib

/-!
Verification of the per-stream HTTP/2 state machine of serf
(`src/protocols/http2_stream.c`) against its specification.

The C code is shallowly embedded: the mutable `serf_http2_stream_t` becomes a
`Stream` record threaded through the operations, buckets become a small
inductive tracking only the wrapping structure the code builds, and frame
enqueueing on the connection becomes a list of emitted `Frame`s in each
operation's result.  External collaborators living outside the stream file
(request setup, HPACK encoding, the application handler) are oracles passed in
as parameters, so the theorems quantify over every possible behaviour of
those collaborators.
-/

namespace Serf

/-- Stream states, from `H2S_*` in `protocols/http2_protocol.h`
(the spec, §3, lists the same eight states). -/
inductive H2Status where
  | INIT
  | IDLE
  | RESERVED_LOCAL
  | RESERVED_REMOTE
  | OPEN
  | HALFCLOSED_LOCAL
  | HALFCLOSED_REMOTE
  | CLOSED
  deriving DecidableEq, Repr

/-- `apr_status_t` values the stream layer distinguishes:
success (0), `APR_EOF`, `APR_EAGAIN`, `SERF_ERROR_WAIT_CONN`, and all
other non-zero codes collapsed into `ECODE`. -/
inductive Apr where
  | SUCCESS
  | EOF
  | EAGAIN
  | WAIT_CONN
  | ECODE (n : Nat)
  deriving DecidableEq, Repr

def APR_STATUS_IS_EOF : Apr → Bool
  | .EOF => true
  | _ => false

def APR_STATUS_IS_EAGAIN : Apr → Bool
  | .EAGAIN => true
  | _ => false

/-- Modelled from the spec: the `SERF_BUCKET_READ_ERROR` test lives in
`serf.h`, which is not under `src/`.  Per the spec's §7 taxonomy, AGAIN
and wait-connection are transient and EOF is normal completion, so a
status is a read error exactly when it is non-zero and none of those. -/
def SERF_BUCKET_READ_ERROR (s : Apr) : Bool :=
  !(s == .SUCCESS) && !(APR_STATUS_IS_EOF s) && !(APR_STATUS_IS_EAGAIN s)
    && !(s == .WAIT_CONN)

/-- The serf status code sent when refusing a pushed stream
(`SERF_ERROR_HTTP2_REFUSED_STREAM`); the concrete numeral is opaque to the
stream layer, which only passes it through to the frame queue. -/
def SERF_ERROR_HTTP2_REFUSED_STREAM : Apr := .ECODE 7

/-- `APR_EGENERAL`, returned when `setup_next_request` is called with an
empty unwritten-request queue. -/
def APR_EGENERAL : Apr := .ECODE 1

/-- HTTP/2 frame-type and flag constants (spec §6 / `http2_buckets.h`). -/
def HTTP2_FRAME_TYPE_DATA : Nat := 0
def HTTP2_FRAME_TYPE_HEADERS : Nat := 1
def HTTP2_FRAME_TYPE_PUSH_PROMISE : Nat := 5
def HTTP2_FLAG_END_STREAM : Nat := 1
def HTTP2_FLAG_END_HEADERS : Nat := 4

/-- Buckets as the stream layer sees them: opaque payloads (identified by a
tag and a byte length) plus the wrappers this file builds around them. -/
inductive Bucket where
  /-- an opaque payload bucket, with an identifying tag and byte length -/
  | raw (id : Nat) (len : Nat)
  /-- `serf__bucket_hpack_decode_create` wrapped around an inner bucket -/
  | hpackDecode (inner : Bucket)
  /-- the aggregate wrapped around a PUSH_PROMISE decoder, whose hold-open
  callback is `stream_promise_done` -/
  | promiseAgg (inner : Bucket)
  deriving DecidableEq, Repr

/-- An application request (`serf_request_t`) as far as the stream layer
reads or writes it.  `rid` stands in for pointer identity; `body` is what
`serf__bucket_request_read` reports for the prepared request bucket;
`acceptor_result` is the response bucket the application's acceptor
callback returns when invoked. -/
structure Request where
  rid : Nat
  req_bkt : Option Bucket
  resp_bkt : Option Bucket
  body : Option Bucket
  acceptor_result : Bucket
  deriving DecidableEq, Repr

/-- `serf_http2_stream_data_t`. The response aggregate, when present, is the
list of buckets appended to it in receive order. -/
structure StreamData where
  request : Option Request
  response_agg : Option (List Bucket)
  deriving DecidableEq, Repr

/-- `serf_http2_stream_t`.  `streamid < 0` is the UNASSIGNED sentinel.
`new_reserved_stream` records whether the pointer to a pending promised
child is non-null; the child itself is passed explicitly where the code
dereferences it. -/
structure Stream where
  streamid : Int
  status : H2Status
  lr_window : Nat
  rl_window : Nat
  data : StreamData
  new_reserved_stream : Bool
  deriving DecidableEq, Repr

/-- The connection fields the stream file touches: the two request queues
and the written-request counter. -/
structure Conn where
  unwritten_reqs : List Request
  written_reqs : List Request
  nr_of_written_reqs : Nat
  deriving DecidableEq, Repr

/-- Frames the stream layer enqueues on the connection.  A HEADERS frame is
created with its stream id still deferred (the id-assignment callback runs
at serialization time, outside this file), so only flags and payload are
recorded; RST_STREAM carries the id and the serf status used as reason. -/
inductive Frame where
  | headers (flags : Nat) (payload : Bucket)
  | rstStream (streamid : Int) (reason : Apr)
  deriving DecidableEq, Repr

/-- `serf_http2__stream_create`.  A non-negative requested id is stored and
the stream starts IDLE; otherwise the id is the UNASSIGNED sentinel `-1`
and the stream starts INIT. -/
def serf_http2__stream_create (streamid : Int) (lr_window rl_window : Nat) :
    Stream :=
  { streamid := if streamid ≥ 0 then streamid else -1
    status := if streamid ≥ 0 then .IDLE else .INIT
    lr_window := lr_window
    rl_window := rl_window
    data := { request := none, response_agg := none }
    new_reserved_stream := false }

/-- Result of an operation that may change the stream and emit frames. -/
structure ResetResult where
  status : Apr
  stream : Stream
  frames : List Frame
  deriving DecidableEq, Repr

/-- `serf_http2__stream_reset`.  Status is forced to CLOSED; nothing is
emitted for a stream the peer has never seen (unassigned id); a local
reset enqueues RST_STREAM via `serf_http2__enqueue_stream_reset`
(modelled from the spec §4.F: that helper lives in `http2_protocol.c`,
not under `src/`, and enqueues the frame, returning success). -/
def serf_http2__stream_reset (stream : Stream) (reason : Apr)
    (local_reset : Bool) : ResetResult :=
  if stream.streamid < 0 then
    { status := .SUCCESS, stream := { stream with status := .CLOSED }
      frames := [] }
  else if local_reset then
    { status := .SUCCESS, stream := { stream with status := .CLOSED }
      frames := [.rstStream stream.streamid reason] }
  else
    { status := .SUCCESS, stream := { stream with status := .CLOSED }
      frames := [] }

/-- `stream_response_eof`: the hold-open callback of the response aggregate,
invoked when a read exhausts every appended bucket. -/
def stream_response_eof (stream : Stream) : Apr :=
  match stream.status with
  | .CLOSED => .EOF
  | .HALFCLOSED_REMOTE => .EOF
  | _ => .EAGAIN

/-- Result of `serf_http2__stream_setup_next_request`. -/
structure SetupResult where
  status : Apr
  stream : Stream
  conn : Conn
  frames : List Frame
  deriving Repr

/-- `serf_http2__stream_setup_next_request`.  The collaborators that live
outside this file are oracles: `setupReq` models `serf__setup_request`
(returning a status and the request object as the call left it — in C the
same object is mutated in place, so the stream's binding always reflects
it) and `hpackCreate` models `serf__bucket_hpack_create_from_request`.
Mirrors the C line by line: bind the head unwritten request, run request
setup when it has no prepared bucket (failure returns the status), splice
the request onto the written queue (with the increment/decrement pair on
the counter), read out the body, build the HPACK block (failure returns the
status), destroy the request bucket when there is no body, wrap the block
in a HEADERS frame with END_STREAM and END_HEADERS, enqueue it, and mark
the stream HALFCLOSED_LOCAL. -/
def serf_http2__stream_setup_next_request (stream : Stream) (conn : Conn)
    (setupReq : Request → Apr × Request)
    (hpackCreate : Request → Apr × Bucket) : SetupResult :=
  match conn.unwritten_reqs with
  | [] => { status := APR_EGENERAL, stream := stream, conn := conn
            frames := [] }
  | request :: rest =>
    let p1 :=
      if request.req_bkt = none then setupReq request
      else (.SUCCESS, request)
    if p1.1 ≠ .SUCCESS then
      { status := p1.1
        stream := { stream with
          data := { stream.data with request := some p1.2 } }
        conn := conn, frames := [] }
    else
      let request1 := p1.2
      let conn1 : Conn :=
        { unwritten_reqs := rest
          written_reqs := conn.written_reqs ++ [request1]
          nr_of_written_reqs := conn.nr_of_written_reqs + 1 - 1 }
      let body := request1.body
      let p2 := hpackCreate request1
      if p2.1 ≠ .SUCCESS then
        { status := p2.1
          stream := { stream with
            data := { stream.data with request := some request1 } }
          conn := conn1, frames := [] }
      else
        let request2 :=
          if body = none then { request1 with req_bkt := none } else request1
        let conn2 : Conn :=
          { conn1 with written_reqs := conn.written_reqs ++ [request2] }
        let frame := Frame.headers
          (HTTP2_FLAG_END_STREAM ||| HTTP2_FLAG_END_HEADERS) p2.2
        { status := .SUCCESS
          stream := { stream with
            status := .HALFCLOSED_LOCAL
            data := { stream.data with request := some request2 } }
          conn := conn2, frames := [frame] }

/-- `stream_setup_response`.  Creates the response aggregate (with
`stream_response_eof` as hold-open callback), but when no request is bound
the C function returns before storing it, so `response_agg` stays null and
the fresh aggregate leaks; otherwise the acceptor is run (once) to build
the response bucket and the aggregate is stored. -/
def stream_setup_response (stream : Stream) : Stream :=
  let agg : List Bucket := []
  match stream.data.request with
  | none => stream
  | some request =>
    let request :=
      if request.resp_bkt = none
      then { request with resp_bkt := some request.acceptor_result }
      else request
    { stream with
      data := { request := some request, response_agg := some agg } }

/-- `serf_bucket_aggregate_append` on `stream->data->response_agg`.  When
the aggregate pointer is null (the unbound-request path through
`stream_setup_response`) the C call dereferences NULL; that abnormal
outcome is `none`. -/
def response_agg_append (stream : Stream) (bucket : Bucket) :
    Option Stream :=
  match stream.data.response_agg with
  | none => none
  | some l =>
    some { stream with
      data := { stream.data with response_agg := some (l ++ [bucket]) } }

/-- The END_STREAM transition shared by `handle_hpack` and `handle_data`:
HALFCLOSED_LOCAL goes to CLOSED, anything else to HALFCLOSED_REMOTE. -/
def end_stream_transition (stream : Stream) : Stream :=
  if stream.status = .HALFCLOSED_LOCAL then
    { stream with status := .CLOSED }
  else
    { stream with status := .HALFCLOSED_REMOTE }

/-- Result of an inbound frame handler: the updated stream, the bucket
returned to the framer (NULL when the stream drains it itself), and the
frames enqueued (these handlers enqueue none). -/
structure HandleResult where
  stream : Stream
  ret : Option Bucket
  frames : List Frame
  deriving DecidableEq, Repr

/-- The lazy instantiation guard shared by both inbound handlers:
`if (!stream->data->response_agg) stream_setup_response(stream, config);`. -/
def lazy_setup_response (stream : Stream) : Stream :=
  if stream.data.response_agg = none then stream_setup_response stream
  else stream

/-- `serf_http2__stream_handle_hpack`.  For HEADERS: lazily set up the
response aggregate, wrap the payload in an HPACK decoder, append it to the
aggregate (a NULL aggregate — possible when no request is bound — makes
the append dereference NULL, modelled as `none`), apply the END_STREAM
transition, and return NULL so the stream drains the bucket itself.  For
any other frame type (asserted to be PUSH_PROMISE) the payload is wrapped
in a decoder feeding `stream_promise_item` and then in an aggregate whose
hold-open callback is `stream_promise_done`; that aggregate is returned
to the framer to drain. -/
def serf_http2__stream_handle_hpack (stream : Stream) (bucket : Bucket)
    (frametype : Nat) (end_stream : Bool) : Option HandleResult :=
  if frametype = HTTP2_FRAME_TYPE_HEADERS then
    match response_agg_append (lazy_setup_response stream)
        (.hpackDecode bucket) with
    | none => none
    | some stream2 =>
      let stream3 := if end_stream then end_stream_transition stream2
                     else stream2
      some { stream := stream3, ret := none, frames := [] }
  else
    some { stream := stream
           ret := some (.promiseAgg (.hpackDecode bucket))
           frames := [] }

/-- `serf_http2__stream_handle_data`.  Lazily set up the response
aggregate, append the payload bucket (NULL aggregate dereference modelled
as `none`), apply the END_STREAM transition, return NULL.  No flow-control
arithmetic and no frame emission occur here. -/
def serf_http2__stream_handle_data (stream : Stream) (bucket : Bucket)
    (end_stream : Bool) : Option HandleResult :=
  match response_agg_append (lazy_setup_response stream) bucket with
  | none => none
  | some stream2 =>
    let stream3 := if end_stream then end_stream_transition stream2
                   else stream2
    some { stream := stream3, ret := none, frames := [] }

/-- Result of `stream_promise_done`: the status returned to the outer
aggregate, both streams, and the emitted frames. -/
structure PromiseDoneResult where
  status : Apr
  parent : Stream
  child : Stream
  frames : List Frame
  deriving DecidableEq, Repr

/-- `stream_promise_done`: the hold-open callback fired when a
PUSH_PROMISE header block completes.  The C function dereferences
`parent->new_reserved_stream`; the child it points to is the explicit
`child` argument here.  It clears the parent's pointer, rejects the
promised stream with a local RST_STREAM(REFUSED_STREAM) reset, and
returns EOF (the reset's own status is ignored). -/
def stream_promise_done (parent child : Stream) : PromiseDoneResult :=
  let parent := { parent with new_reserved_stream := false }
  let r := serf_http2__stream_reset child SERF_ERROR_HTTP2_REFUSED_STREAM true
  { status := .EOF, parent := parent, child := r.stream, frames := r.frames }

/-- Remove the first list node that is the given request (pointer identity
is `rid`), as the processor's unlink loop does. -/
def remove_written (l : List Request) (rid : Nat) : List Request :=
  match l with
  | [] => []
  | q :: qs => if q.rid == rid then qs else q :: remove_written qs rid

/-- Result of `serf_http2__stream_processor`. -/
structure ProcResult where
  status : Apr
  stream : Stream
  conn : Conn
  frames : List Frame
  deriving Repr

/-- The drain loop at the tail of the processor.  The loop reads the
response aggregate until a non-zero status; which status ends it depends
on the appended network buckets and on `stream_response_eof`, so the
terminal status is the oracle `drainStatus`.  On EOF with the stream in a
terminal state the aggregate is destroyed. -/
def stream_processor_drain (stream : Stream) (conn : Conn)
    (drainStatus : Apr) : ProcResult :=
  let status := drainStatus
  if APR_STATUS_IS_EOF status
      ∧ (stream.status = .CLOSED ∨ stream.status = .HALFCLOSED_REMOTE) then
    { status := status
      stream := { stream with
        data := { stream.data with response_agg := none } }
      conn := conn, frames := [] }
  else
    { status := status, stream := stream, conn := conn, frames := [] }

/-- `serf_http2__stream_processor`.  If a request is bound, run its
handler (oracle `handler`); a status that is neither EOF nor a read error
is returned as is.  Otherwise the request is unlinked from the
connection's written queue (decrementing the counter when found),
destroyed, and unbound from the stream.  A read error then triggers a
local reset — only when the stream is not already CLOSED — and is
returned.  On EOF the processor falls through to the drain loop. -/
def serf_http2__stream_processor (stream : Stream) (conn : Conn)
    (handler : Request → Apr) (drainStatus : Apr) : ProcResult :=
  match stream.data.request with
  | none => stream_processor_drain stream conn drainStatus
  | some request =>
    let status := handler request
    if ¬ APR_STATUS_IS_EOF status ∧ ¬ SERF_BUCKET_READ_ERROR status then
      { status := status, stream := stream, conn := conn, frames := [] }
    else
      let found := conn.written_reqs.any (fun q => q.rid == request.rid)
      let conn1 : Conn :=
        if found then
          { conn with
            written_reqs := remove_written conn.written_reqs request.rid
            nr_of_written_reqs := conn.nr_of_written_reqs - 1 }
        else conn
      let stream1 :=
        { stream with data := { stream.data with request := none } }
      if SERF_BUCKET_READ_ERROR status then
        if stream1.status ≠ .CLOSED then
          let r := serf_http2__stream_reset stream1 status true
          { status := status, stream := r.stream, conn := conn1
            frames := r.frames }
        else
          { status := status, stream := stream1, conn := conn1
            frames := [] }
      else
        stream_processor_drain stream1 conn1 drainStatus

/-! ### Operation sequences

The external operations of the stream API, packaged so that invariants can
be stated over arbitrary call sequences.  Oracle arguments are carried in
the operation, so quantifying over `Op` quantifies over every behaviour of
the external collaborators. -/

/-- One external operation on a stream. -/
inductive Op where
  | setupNext (conn : Conn) (setupReq : Request → Apr × Request)
      (hpackCreate : Request → Apr × Bucket)
  | handleHpack (bucket : Bucket) (frametype : Nat) (end_stream : Bool)
  | handleData (bucket : Bucket) (end_stream : Bool)
  | doReset (reason : Apr) (local_reset : Bool)
  | process (conn : Conn) (handler : Request → Apr) (drainStatus : Apr)

/-- Apply one operation to a stream, projecting out the stream component
(a crashed handler call — the NULL-aggregate dereference — leaves no
stream state to observe; the prior state is kept). -/
def applyOp (s : Stream) : Op → Stream
  | .setupNext conn su hc =>
    (serf_http2__stream_setup_next_request s conn su hc).stream
  | .handleHpack b ft es =>
    match serf_http2__stream_handle_hpack s b ft es with
    | some r => r.stream
    | none => s
  | .handleData b es =>
    match serf_http2__stream_handle_data s b es with
    | some r => r.stream
    | none => s
  | .doReset reason loc => (serf_http2__stream_reset s reason loc).stream
  | .process conn h d => (serf_http2__stream_processor s conn h d).stream

/-! ### Helper lemmas -/

@[simp]
theorem stream_setup_response_streamid (s : Stream) :
    (stream_setup_response s).streamid = s.streamid := by
  unfold stream_setup_response
  cases h : s.data.request <;> simp [h]

@[simp]
theorem stream_setup_response_status (s : Stream) :
    (stream_setup_response s).status = s.status := by
  unfold stream_setup_response
  cases h : s.data.request <;> simp [h]

@[simp]
theorem stream_setup_response_rl_window (s : Stream) :
    (stream_setup_response s).rl_window = s.rl_window := by
  unfold stream_setup_response
  cases h : s.data.request <;> simp [h]

theorem response_agg_append_fields (s s' : Stream) (b : Bucket)
    (h : response_agg_append s b = some s') :
    s'.streamid = s.streamid ∧ s'.status = s.status
      ∧ s'.rl_window = s.rl_window ∧ s'.data.request = s.data.request := by
  unfold response_agg_append at h
  cases hb : s.data.response_agg <;> simp [hb] at h
  subst h
  simp

@[simp]
theorem end_stream_transition_streamid (s : Stream) :
    (end_stream_transition s).streamid = s.streamid := by
  unfold end_stream_transition
  split <;> simp

@[simp]
theorem end_stream_transition_rl_window (s : Stream) :
    (end_stream_transition s).rl_window = s.rl_window := by
  unfold end_stream_transition
  split <;> simp

theorem end_stream_transition_status (s : Stream) :
    (end_stream_transition s).status = .CLOSED
      ∨ (end_stream_transition s).status = .HALFCLOSED_REMOTE := by
  unfold end_stream_transition
  split <;> simp

@[simp]
theorem end_stream_transition_status_eq (s : Stream) :
    (end_stream_transition s).status =
      (if s.status = .HALFCLOSED_LOCAL then .CLOSED
        else .HALFCLOSED_REMOTE) := by
  unfold end_stream_transition
  split <;> simp_all

@[simp]
theorem lazy_setup_response_streamid (s : Stream) :
    (lazy_setup_response s).streamid = s.streamid := by
  unfold lazy_setup_response
  split <;> simp

@[simp]
theorem lazy_setup_response_status (s : Stream) :
    (lazy_setup_response s).status = s.status := by
  unfold lazy_setup_response
  split <;> simp

@[simp]
theorem lazy_setup_response_rl_window (s : Stream) :
    (lazy_setup_response s).rl_window = s.rl_window := by
  unfold lazy_setup_response
  split <;> simp

@[simp]
theorem reset_stream_eq (s : Stream) (reason : Apr) (loc : Bool) :
    (serf_http2__stream_reset s reason loc).stream
      = { s with status := .CLOSED } := by
  unfold serf_http2__stream_reset
  split
  · rfl
  · split <;> rfl

theorem handle_data_fields (s : Stream) (b : Bucket) (es : Bool)
    (r : HandleResult) (h : serf_http2__stream_handle_data s b es = some r) :
    r.stream.streamid = s.streamid ∧ r.stream.rl_window = s.rl_window
      ∧ (r.stream.status = s.status ∨ r.stream.status = .CLOSED
          ∨ r.stream.status = .HALFCLOSED_REMOTE)
      ∧ r.frames = [] := by
  simp only [serf_http2__stream_handle_data] at h
  split at h
  · simp at h
  · rename_i s2 happ
    injection h with h
    subst h
    obtain ⟨h1, h2, h3, _⟩ := response_agg_append_fields _ _ _ happ
    cases es <;> simp_all
    all_goals tauto

theorem handle_hpack_fields (s : Stream) (b : Bucket) (ft : Nat) (es : Bool)
    (r : HandleResult)
    (h : serf_http2__stream_handle_hpack s b ft es = some r) :
    r.stream.streamid = s.streamid ∧ r.stream.rl_window = s.rl_window
      ∧ (r.stream.status = s.status ∨ r.stream.status = .CLOSED
          ∨ r.stream.status = .HALFCLOSED_REMOTE)
      ∧ r.frames = [] := by
  simp only [serf_http2__stream_handle_hpack] at h
  split at h
  · split at h
    · simp at h
    · rename_i s2 happ
      injection h with h
      subst h
      obtain ⟨h1, h2, h3, _⟩ := response_agg_append_fields _ _ _ happ
      cases es <;> simp_all
      all_goals tauto
  · injection h with h
    subst h
    simp

theorem setup_next_request_fields (s : Stream) (conn : Conn)
    (su : Request → Apr × Request) (hc : Request → Apr × Bucket) :
    (serf_http2__stream_setup_next_request s conn su hc).stream.streamid
        = s.streamid
      ∧ ((serf_http2__stream_setup_next_request s conn su hc).stream.status
            = s.status
         ∨ (serf_http2__stream_setup_next_request s conn su hc).stream.status
            = .HALFCLOSED_LOCAL) := by
  simp only [serf_http2__stream_setup_next_request]
  repeat' split
  all_goals simp

theorem stream_processor_drain_fields (s : Stream) (conn : Conn) (d : Apr) :
    (stream_processor_drain s conn d).stream.streamid = s.streamid
      ∧ (stream_processor_drain s conn d).stream.status = s.status := by
  simp only [stream_processor_drain]
  split <;> simp

theorem processor_fields (s : Stream) (conn : Conn) (h : Request → Apr)
    (d : Apr) :
    (serf_http2__stream_processor s conn h d).stream.streamid = s.streamid
      ∧ ((serf_http2__stream_processor s conn h d).stream.status = s.status
         ∨ (serf_http2__stream_processor s conn h d).stream.status
             = .CLOSED) := by
  simp only [serf_http2__stream_processor]
  split
  · rename_i hreq
    obtain ⟨h1, h2⟩ := stream_processor_drain_fields s conn d
    exact ⟨h1, Or.inl h2⟩
  · rename_i request hreq
    repeat' split
    all_goals
      first
      | simp
      | exact ⟨(stream_processor_drain_fields _ _ _).1,
          Or.inl (stream_processor_drain_fields _ _ _).2⟩

theorem applyOp_fields (s : Stream) (op : Op) :
    (applyOp s op).streamid = s.streamid
      ∧ ((applyOp s op).status = .INIT → s.status = .INIT) := by
  cases op with
  | setupNext conn su hc =>
    obtain ⟨h1, h2⟩ := setup_next_request_fields s conn su hc
    refine ⟨h1, fun hi => ?_⟩
    simp only [applyOp] at hi
    rcases h2 with h2 | h2
    · rwa [h2] at hi
    · rw [h2] at hi
      cases hi
  | handleHpack b ft es =>
    cases hr : serf_http2__stream_handle_hpack s b ft es with
    | none => simp [applyOp, hr]
    | some r =>
      obtain ⟨h1, _, h3, _⟩ := handle_hpack_fields s b ft es r hr
      refine ⟨by simp [applyOp, hr, h1], fun hi => ?_⟩
      simp only [applyOp, hr] at hi
      rcases h3 with h3 | h3 | h3 <;> rw [h3] at hi
      · exact hi
      · exact absurd hi (by decide)
      · exact absurd hi (by decide)
  | handleData b es =>
    cases hr : serf_http2__stream_handle_data s b es with
    | none => simp [applyOp, hr]
    | some r =>
      obtain ⟨h1, _, h3, _⟩ := handle_data_fields s b es r hr
      refine ⟨by simp [applyOp, hr, h1], fun hi => ?_⟩
      simp only [applyOp, hr] at hi
      rcases h3 with h3 | h3 | h3 <;> rw [h3] at hi
      · exact hi
      · exact absurd hi (by decide)
      · exact absurd hi (by decide)
  | doReset reason loc =>
    refine ⟨by simp [applyOp], fun hi => ?_⟩
    simp [applyOp] at hi
  | process conn h d =>
    obtain ⟨h1, h2⟩ := processor_fields s conn h d
    refine ⟨h1, fun hi => ?_⟩
    simp only [applyOp] at hi
    rcases h2 with h2 | h2
    · rwa [h2] at hi
    · rw [h2] at hi
      cases hi

theorem foldl_applyOp_inv (ops : List Op) (s : Stream)
    (h : s.status = .INIT → s.streamid < 0) :
    (ops.foldl applyOp s).status = .INIT
      → (ops.foldl applyOp s).streamid < 0 := by
  induction ops generalizing s with
  | nil => exact h
  | cons op ops ih =>
    simp only [List.foldl_cons]
    refine ih _ fun hi => ?_
    obtain ⟨h1, h2⟩ := applyOp_fields s op
    rw [h1]
    exact h (h2 hi)

/-! ### Claim C2 -/

/-- Claim C2: for an incoming HEADERS frame handled by `handle_hpack` or a
DATA frame handled by `handle_data` that returns normally, an end_stream
flag moves a HALFCLOSED_LOCAL stream to CLOSED and a stream in any other
status to HALFCLOSED_REMOTE, and without end_stream the status is
unchanged. -/
theorem C2_end_stream_status (stream : Stream) (bucket : Bucket) (es : Bool)
    (r : HandleResult)
    (h : serf_http2__stream_handle_hpack stream bucket
          HTTP2_FRAME_TYPE_HEADERS es = some r
      ∨ serf_http2__stream_handle_data stream bucket es = some r) :
    r.stream.status =
      (if es then
        (if stream.status = .HALFCLOSED_LOCAL then H2Status.CLOSED
          else .HALFCLOSED_REMOTE)
        else stream.status) := by
  rcases h with h | h
  · simp only [serf_http2__stream_handle_hpack, reduceIte] at h
    split at h
    · simp at h
    · rename_i s2 happ
      injection h with h
      subst h
      obtain ⟨-, hst, -, -⟩ := response_agg_append_fields _ _ _ happ
      rw [lazy_setup_response_status] at hst
      cases es <;> simp [hst]
  · simp only [serf_http2__stream_handle_data] at h
    split at h
    · simp at h
    · rename_i s2 happ
      injection h with h
      subst h
      obtain ⟨-, hst, -, -⟩ := response_agg_append_fields _ _ _ happ
      rw [lazy_setup_response_status] at hst
      cases es <;> simp [hst]

/-- An OPEN stream with an installed (empty) response pipeline. -/
def c2Stream : Stream :=
  { streamid := 3, status := .OPEN, lr_window := 65535, rl_window := 65535
    data := { request := none, response_agg := some [] }
    new_reserved_stream := false }

/-- The result of delivering DATA with end_stream to `c2Stream`. -/
def c2Result : HandleResult :=
  { stream :=
      { streamid := 3, status := .HALFCLOSED_REMOTE, lr_window := 65535
        rl_window := 65535
        data := { request := none, response_agg := some [.raw 1 5] }
        new_reserved_stream := false }
    ret := none, frames := [] }

/-- Witness for C2: a DATA frame with end_stream on an OPEN stream moves
it to HALFCLOSED_REMOTE. -/
theorem C2_witness :
    c2Result.stream.status =
      (if true then
        (if c2Stream.status = .HALFCLOSED_LOCAL then H2Status.CLOSED
          else .HALFCLOSED_REMOTE)
        else c2Stream.status) :=
  C2_end_stream_status c2Stream (.raw 1 5) true c2Result
    (Or.inr (by decide))

/-! ### Claim C1 -/

/-- Claim C1 rendered over the embedding: whenever `setup_next_request`
succeeds, the emitted HEADERS frame carries END_HEADERS (bit 2), carries
END_STREAM (bit 0) iff the bound request's body source is empty, and the
stream ends in HALFCLOSED_LOCAL when END_STREAM was set and OPEN
otherwise. -/
def C1_claim (stream : Stream) (conn : Conn)
    (su : Request → Apr × Request) (hc : Request → Apr × Bucket) : Prop :=
  (serf_http2__stream_setup_next_request stream conn su hc).status
      = .SUCCESS →
  ∀ flags payload,
    (serf_http2__stream_setup_next_request stream conn su hc).frames
        = [.headers flags payload] →
    Nat.testBit flags 2 = true
    ∧ (Nat.testBit flags 0 = true ↔
        ((serf_http2__stream_setup_next_request
            stream conn su hc).stream.data.request.bind Request.body)
          = none)
    ∧ (serf_http2__stream_setup_next_request stream conn su hc).stream.status
        = (if Nat.testBit flags 0 then .HALFCLOSED_LOCAL else .OPEN)

/-- A prepared request whose body source is non-empty. -/
def c1Request : Request :=
  { rid := 1, req_bkt := some (.raw 10 0), resp_bkt := none
    body := some (.raw 11 5), acceptor_result := .raw 12 0 }

/-- A connection whose head unwritten request is `c1Request`. -/
def c1Conn : Conn :=
  { unwritten_reqs := [c1Request], written_reqs := []
    nr_of_written_reqs := 0 }

/-- A fresh INIT stream for binding `c1Request`. -/
def c1Stream : Stream := serf_http2__stream_create (-1) 65535 65535

/-- Oracle for `serf__setup_request` that always succeeds. -/
def c1Setup : Request → Apr × Request := fun q => (.SUCCESS, q)

/-- Oracle for `serf__bucket_hpack_create_from_request` that always
succeeds. -/
def c1Hpack : Request → Apr × Bucket := fun _ => (.SUCCESS, .raw 13 0)

/-- Claim C1 is false on the code: for a request with a non-empty body
source, the emitted HEADERS frame still carries END_STREAM — the flags
are hard-coded to END_STREAM|END_HEADERS — so "END_STREAM iff the body
source is empty" fails. -/
theorem C1_counterexample : ¬ C1_claim c1Stream c1Conn c1Setup c1Hpack := by
  intro h
  simp only [C1_claim] at h
  obtain ⟨-, hiff, -⟩ := h (by decide) 5 (.raw 13 0) (by decide)
  exact absurd (hiff.mp (by decide)) (by decide)

/-- Claim C1 (amended): whenever `setup_next_request` succeeds, the single
emitted HEADERS frame carries both END_STREAM and END_HEADERS
unconditionally — the body source is not consulted for the flags — and
the stream's status is always HALFCLOSED_LOCAL afterwards. -/
theorem C1_amended (stream : Stream) (conn : Conn)
    (su : Request → Apr × Request) (hc : Request → Apr × Bucket)
    (h : (serf_http2__stream_setup_next_request stream conn su hc).status
        = .SUCCESS) :
    ∃ payload,
      (serf_http2__stream_setup_next_request stream conn su hc).frames
          = [.headers (HTTP2_FLAG_END_STREAM ||| HTTP2_FLAG_END_HEADERS)
              payload]
      ∧ Nat.testBit (HTTP2_FLAG_END_STREAM ||| HTTP2_FLAG_END_HEADERS) 0
          = true
      ∧ Nat.testBit (HTTP2_FLAG_END_STREAM ||| HTTP2_FLAG_END_HEADERS) 2
          = true
      ∧ (serf_http2__stream_setup_next_request
          stream conn su hc).stream.status = .HALFCLOSED_LOCAL := by
  rcases hq : conn.unwritten_reqs with - | ⟨request, rest⟩
  · simp only [serf_http2__stream_setup_next_request, hq] at h
    simp [APR_EGENERAL] at h
  · by_cases hb : request.req_bkt = none
    · by_cases h1 : (su request).1 = Apr.SUCCESS
      · by_cases h2 : (hc (su request).2).1 = Apr.SUCCESS
        · refine ⟨(hc (su request).2).2, ?_, by decide, by decide, ?_⟩ <;>
            simp [serf_http2__stream_setup_next_request, hq, hb, h1, h2]
        · simp [serf_http2__stream_setup_next_request, hq, hb, h1, h2] at h
      · simp [serf_http2__stream_setup_next_request, hq, hb, h1] at h
    · by_cases h2 : (hc request).1 = Apr.SUCCESS
      · refine ⟨(hc request).2, ?_, by decide, by decide, ?_⟩ <;>
          simp [serf_http2__stream_setup_next_request, hq, hb, h2]
      · simp [serf_http2__stream_setup_next_request, hq, hb, h2] at h

/-- Witness for the amended C1: the same successful concrete run used in
the counterexample. -/
theorem C1_witness :
    ∃ payload,
      (serf_http2__stream_setup_next_request
          c1Stream c1Conn c1Setup c1Hpack).frames
          = [.headers (HTTP2_FLAG_END_STREAM ||| HTTP2_FLAG_END_HEADERS)
              payload]
      ∧ Nat.testBit (HTTP2_FLAG_END_STREAM ||| HTTP2_FLAG_END_HEADERS) 0
          = true
      ∧ Nat.testBit (HTTP2_FLAG_END_STREAM ||| HTTP2_FLAG_END_HEADERS) 2
          = true
      ∧ (serf_http2__stream_setup_next_request
          c1Stream c1Conn c1Setup c1Hpack).stream.status
          = .HALFCLOSED_LOCAL :=
  C1_amended c1Stream c1Conn c1Setup c1Hpack (by decide)

/-! ### Claim C3 -/

/-- Claim C3: a read that exhausts the appended producer buckets of an
installed response pipeline hits the aggregate's hold-open callback
`stream_response_eof`, which returns EOF iff the stream's status is
CLOSED or HALFCLOSED_REMOTE and would-block (EAGAIN) in every other
status. -/
theorem C3_response_eof_gating (stream : Stream) :
    stream_response_eof stream =
      (if stream.status = .CLOSED ∨ stream.status = .HALFCLOSED_REMOTE
        then Apr.EOF else Apr.EAGAIN) := by
  cases hs : stream.status <;> simp [stream_response_eof, hs]

/-! ### Claim C4 -/

/-- An OPEN stream with assigned id 1, for exercising `reset`. -/
def c4Stream : Stream :=
  { streamid := 1, status := .OPEN, lr_window := 65535, rl_window := 65535
    data := { request := none, response_agg := none }
    new_reserved_stream := false }

/-- A CLOSED stream that never got an id assigned. -/
def c4Closed : Stream :=
  { streamid := -1, status := .CLOSED, lr_window := 65535
    rl_window := 65535, data := { request := none, response_agg := none }
    new_reserved_stream := false }

/-- Claim C4 is false on the code: on a stream with an assigned id, two
successive local resets enqueue two RST_STREAM frames, not exactly one,
and the second reset — called on a stream that is already CLOSED — still
enqueues a frame, so it is not a no-op. -/
theorem C4_counterexample :
    ¬ ((serf_http2__stream_reset c4Stream (.ECODE 8) true).frames ++
        (serf_http2__stream_reset
          (serf_http2__stream_reset c4Stream (.ECODE 8) true).stream
          (.ECODE 9) true).frames).length = 1
    ∧ (serf_http2__stream_reset c4Stream (.ECODE 8) true).stream.status
        = .CLOSED
    ∧ (serf_http2__stream_reset
        (serf_http2__stream_reset c4Stream (.ECODE 8) true).stream
        (.ECODE 9) true).frames ≠ [] := by
  decide

/-- Claim C4 (amended): `serf_http2__stream_reset` does not test the
current status, so every local reset of a stream with an assigned id
enqueues one RST_STREAM — two successive local resets enqueue two frames
in total — while a reset of a stream whose id is unassigned (in
particular a CLOSED stream that was never sent) enqueues nothing,
returns success, and leaves the stream unchanged; every reset forces the
status to CLOSED. -/
theorem C4_amended (s t : Stream) (r r' : Apr)
    (hs : 0 ≤ s.streamid) (ht : t.streamid < 0) (htc : t.status = .CLOSED) :
    (serf_http2__stream_reset s r true).frames ++
        (serf_http2__stream_reset
          (serf_http2__stream_reset s r true).stream r' true).frames
      = [.rstStream s.streamid r, .rstStream s.streamid r']
    ∧ (serf_http2__stream_reset s r true).stream.status = .CLOSED
    ∧ serf_http2__stream_reset t r true
        = { status := .SUCCESS, stream := t, frames := [] } := by
  have hns : ¬ s.streamid < 0 := not_lt.mpr hs
  have hteq : ({ t with status := .CLOSED } : Stream) = t := by
    cases t
    simp_all
  refine ⟨?_, ?_, ?_⟩
  · simp [serf_http2__stream_reset, hns]
  · simp [serf_http2__stream_reset, hns]
  · simp [serf_http2__stream_reset, ht, hteq]

/-- Witness for the amended C4 at concrete streams. -/
theorem C4_witness :
    (serf_http2__stream_reset c4Stream (.ECODE 8) true).frames ++
        (serf_http2__stream_reset
          (serf_http2__stream_reset c4Stream (.ECODE 8) true).stream
          (.ECODE 9) true).frames
      = [.rstStream c4Stream.streamid (.ECODE 8),
         .rstStream c4Stream.streamid (.ECODE 9)]
    ∧ (serf_http2__stream_reset c4Stream (.ECODE 8) true).stream.status
        = .CLOSED
    ∧ serf_http2__stream_reset c4Closed (.ECODE 8) true
        = { status := .SUCCESS, stream := c4Closed, frames := [] } :=
  C4_amended c4Stream c4Closed (.ECODE 8) (.ECODE 9)
    (by decide) (by decide) (by decide)

/-! ### Claim C5 -/

/-- A freshly created stream with no id requested: INIT, unassigned. -/
def c5Stream : Stream := serf_http2__stream_create (-1) 65535 65535

/-- Claim C5 is false on the code: after the legal sequence
create(UNASSIGNED) then reset (the spec's own scenario S4), the stream id
is still unassigned while the status is CLOSED, so
(stream_id = UNASSIGNED) does not imply (status = INIT). -/
theorem C5_counterexample :
    (applyOp c5Stream (.doReset (.ECODE 8) true)).streamid = -1
    ∧ (applyOp c5Stream (.doReset (.ECODE 8) true)).status ≠ .INIT := by
  decide

/-- Claim C5 (amended): only one direction of the claimed biconditional
is an invariant of the stream file: after `create` and any sequence of
external operations (setup_next_request, handle_hpack, handle_data,
reset, process with arbitrary collaborator behaviour), status = INIT
implies stream_id = UNASSIGNED.  The converse fails (see the
counterexample). -/
theorem C5_amended (streamid : Int) (lr rl : Nat) (ops : List Op)
    (h : (ops.foldl applyOp
        (serf_http2__stream_create streamid lr rl)).status = .INIT) :
    (ops.foldl applyOp
        (serf_http2__stream_create streamid lr rl)).streamid < 0 := by
  refine foldl_applyOp_inv ops _ (fun hi => ?_) h
  by_cases h0 : streamid ≥ 0
  · simp [serf_http2__stream_create, h0] at hi
  · simp [serf_http2__stream_create, h0]

/-- Witness for the amended C5: the empty operation sequence on a fresh
unassigned stream. -/
theorem C5_witness :
    (([] : List Op).foldl applyOp
        (serf_http2__stream_create (-1) 65535 65535)).streamid < 0 :=
  C5_amended (-1) 65535 65535 [] (by decide)

/-! ### Claim C6 -/

/-- A parent stream holding a pending promised child. -/
def c6Parent : Stream :=
  { streamid := 1, status := .OPEN, lr_window := 65535, rl_window := 65535
    data := { request := none, response_agg := some [] }
    new_reserved_stream := true }

/-- The promised child stream, reserved with id 2. -/
def c6Child : Stream :=
  { streamid := 2, status := .RESERVED_REMOTE, lr_window := 65535
    rl_window := 65535, data := { request := none, response_agg := none }
    new_reserved_stream := false }

/-! ### Claim C10 -/

theorem any_rid_of_mem (l : List Request) (rid : Nat)
    (h : rid ∈ l.map Request.rid) :
    l.any (fun q => q.rid == rid) = true := by
  obtain ⟨q, hq, hr⟩ := List.mem_map.mp h
  exact List.any_eq_true.mpr ⟨q, hq, by simp [hr]⟩

theorem countP_remove_written (l : List Request) (rid : Nat)
    (h : rid ∈ l.map Request.rid) :
    ((remove_written l rid).countP (fun q => q.rid == rid)) + 1
      = l.countP (fun q => q.rid == rid) := by
  induction l with
  | nil => simp at h
  | cons q qs ih =>
    simp only [List.map_cons, List.mem_cons] at h
    by_cases hq : q.rid = rid
    · simp [remove_written, hq, List.countP_cons]
    · have hmem : rid ∈ qs.map Request.rid := by
        rcases h with h | h
        · exact absurd h.symm hq
        · exact h
      simp only [remove_written, List.countP_cons]
      rw [if_neg (by simp [hq])]
      simp [List.countP_cons, hq, ih hmem]

theorem stream_processor_drain_conn (s : Stream) (c : Conn) (d : Apr) :
    (stream_processor_drain s c d).conn = c := by
  simp only [stream_processor_drain]
  split <;> rfl

theorem stream_processor_drain_request (s : Stream) (c : Conn) (d : Apr) :
    (stream_processor_drain s c d).stream.data.request
      = s.data.request := by
  simp only [stream_processor_drain]
  split <;> simp

/-- Claim C10: when the bound request's handler reports EOF or a read
error (anything but a transient status), the processor unlinks the
request from the connection's written-requests list (one occurrence
removed, counter decremented), destroys it and unbinds it from the
stream; in the read-error case the error is returned to the caller and a
local RST_STREAM is enqueued only if the stream was not already
CLOSED. -/
theorem C10_processor_teardown (stream : Stream) (conn : Conn)
    (handler : Request → Apr) (d : Apr) (request : Request)
    (hreq : stream.data.request = some request)
    (hdone : APR_STATUS_IS_EOF (handler request) = true
      ∨ SERF_BUCKET_READ_ERROR (handler request) = true)
    (hmem : request.rid ∈ conn.written_reqs.map Request.rid) :
    (serf_http2__stream_processor stream conn handler d).stream.data.request
        = none
    ∧ ((serf_http2__stream_processor
          stream conn handler d).conn.written_reqs.countP
            (fun q => q.rid == request.rid)) + 1
        = conn.written_reqs.countP (fun q => q.rid == request.rid)
    ∧ (serf_http2__stream_processor
          stream conn handler d).conn.nr_of_written_reqs
        = conn.nr_of_written_reqs - 1
    ∧ (SERF_BUCKET_READ_ERROR (handler request) = true →
        (serf_http2__stream_processor stream conn handler d).status
            = handler request
        ∧ (stream.status = .CLOSED →
            (serf_http2__stream_processor stream conn handler d).frames
              = [])) := by
  have hcond : ¬ (¬ APR_STATUS_IS_EOF (handler request) = true
      ∧ ¬ SERF_BUCKET_READ_ERROR (handler request) = true) := by
    rcases hdone with h | h <;> simp [h]
  have hfound := any_rid_of_mem conn.written_reqs request.rid hmem
  have hcount := countP_remove_written conn.written_reqs request.rid hmem
  simp only [serf_http2__stream_processor, hreq] at *
  rw [if_neg hcond]
  simp only [hfound, reduceIte]
  split
  · rename_i hre
    split
    · rename_i hncl
      exact ⟨by simp, hcount, rfl, fun _ => ⟨rfl, fun hcl => absurd hcl hncl⟩⟩
    · rename_i hncl
      refine ⟨rfl, hcount, rfl, fun _ => ⟨rfl, fun _ => rfl⟩⟩
  · rename_i hre
    refine ⟨?_, ?_, ?_, fun h => absurd h hre⟩
    · rw [stream_processor_drain_request]
    · rw [stream_processor_drain_conn]
      exact hcount
    · rw [stream_processor_drain_conn]

/-- A request destroyed by the processor in the witness run. -/
def c10Request : Request :=
  { rid := 7, req_bkt := none, resp_bkt := some (.raw 40 0), body := none
    acceptor_result := .raw 40 0 }

/-- A HALFCLOSED_LOCAL stream with `c10Request` bound and a pipeline
installed. -/
def c10Stream : Stream :=
  { streamid := 5, status := .HALFCLOSED_LOCAL, lr_window := 65535
    rl_window := 65535
    data := { request := some c10Request, response_agg := some [] }
    new_reserved_stream := false }

/-- A connection whose written list holds exactly `c10Request`. -/
def c10Conn : Conn :=
  { unwritten_reqs := [], written_reqs := [c10Request]
    nr_of_written_reqs := 1 }

/-- A handler oracle that reports EOF. -/
def c10Handler : Request → Apr := fun _ => .EOF

/-- Witness for C10: an EOF-reporting handler gets its request unlinked,
destroyed and unbound. -/
theorem C10_witness :
    (serf_http2__stream_processor
        c10Stream c10Conn c10Handler .EAGAIN).stream.data.request = none
    ∧ ((serf_http2__stream_processor
          c10Stream c10Conn c10Handler .EAGAIN).conn.written_reqs.countP
            (fun q => q.rid == c10Request.rid)) + 1
        = c10Conn.written_reqs.countP (fun q => q.rid == c10Request.rid)
    ∧ (serf_http2__stream_processor
          c10Stream c10Conn c10Handler .EAGAIN).conn.nr_of_written_reqs
        = c10Conn.nr_of_written_reqs - 1
    ∧ (SERF_BUCKET_READ_ERROR (c10Handler c10Request) = true →
        (serf_http2__stream_processor
            c10Stream c10Conn c10Handler .EAGAIN).status
            = c10Handler c10Request
        ∧ (c10Stream.status = .CLOSED →
            (serf_http2__stream_processor
                c10Stream c10Conn c10Handler .EAGAIN).frames = [])) :=
  C10_processor_teardown c10Stream c10Conn c10Handler .EAGAIN c10Request
    (by decide) (Or.inl (by decide)) (by decide)

/-- Claim C6: when a PUSH_PROMISE header block completes while a child
stream is pending in RESERVED_REMOTE, `stream_promise_done` enqueues
RST_STREAM(REFUSED_STREAM) for the child's id, clears the parent's
pending-promised-child pointer, returns EOF, and leaves the child
CLOSED. -/
theorem C6_promise_done (parent child : Stream)
    (hp : parent.new_reserved_stream = true)
    (hc : child.status = .RESERVED_REMOTE)
    (hid : 0 ≤ child.streamid) :
    (stream_promise_done parent child).frames
        = [.rstStream child.streamid SERF_ERROR_HTTP2_REFUSED_STREAM]
    ∧ (stream_promise_done parent child).parent
        = { parent with new_reserved_stream := false }
    ∧ (stream_promise_done parent child).status = .EOF
    ∧ (stream_promise_done parent child).child.status = .CLOSED := by
  have hns : ¬ child.streamid < 0 := not_lt.mpr hid
  simp [stream_promise_done, serf_http2__stream_reset, hns]

/-! ### Claim C7 -/

/-- The byte length of the payload a bucket carries (wrappers are
transparent). -/
def bucket_len : Bucket → Nat
  | .raw _ len => len
  | .hpackDecode inner => bucket_len inner
  | .promiseAgg inner => bucket_len inner

/-- Claim C7 rendered over the embedding: `handle_data` decrements the
stream's receive window by the DATA frame's padded length (the payload
length plus any padding). -/
def C7_claim (stream : Stream) (bucket : Bucket) (padded_len : Nat)
    (es : Bool) : Prop :=
  bucket_len bucket ≤ padded_len →
  ∀ r, serf_http2__stream_handle_data stream bucket es = some r →
    (r.stream.rl_window : Int) = (stream.rl_window : Int) - padded_len

/-- An OPEN stream with an installed pipeline and a full receive
window. -/
def c7Stream : Stream :=
  { streamid := 9, status := .OPEN, lr_window := 65535, rl_window := 65535
    data := { request := none, response_agg := some [] }
    new_reserved_stream := false }

/-- The result of delivering a 10-byte DATA frame to `c7Stream`. -/
def c7Result : HandleResult :=
  { stream :=
      { streamid := 9, status := .OPEN, lr_window := 65535
        rl_window := 65535
        data := { request := none, response_agg := some [.raw 30 10] }
        new_reserved_stream := false }
    ret := none, frames := [] }

/-- Claim C7 is false on the code: `serf_http2__stream_handle_data`
contains no flow-control arithmetic at all, so a 10-byte unpadded DATA
frame leaves `rl_window` at 65535 instead of 65525. -/
theorem C7_counterexample : ¬ C7_claim c7Stream (.raw 30 10) 10 false := by
  intro h
  simp only [C7_claim] at h
  exact absurd (h (by decide) c7Result (by decide)) (by decide)

/-- Claim C7 (amended): `handle_data` performs no flow-control work: it
leaves `recv_window` exactly unchanged and enqueues no frame at all (in
particular no WINDOW_UPDATE), so the window stays at its creation value
and stays within [0, 2^31 − 1] whenever the creation value is. -/
theorem C7_amended (stream : Stream) (bucket : Bucket) (es : Bool)
    (r : HandleResult)
    (h : serf_http2__stream_handle_data stream bucket es = some r) :
    r.stream.rl_window = stream.rl_window
    ∧ r.frames = []
    ∧ (stream.rl_window ≤ 2 ^ 31 - 1 → r.stream.rl_window ≤ 2 ^ 31 - 1) := by
  obtain ⟨-, h2, -, h4⟩ := handle_data_fields _ _ _ _ h
  exact ⟨h2, h4, fun hb => h2 ▸ hb⟩

/-- Witness for the amended C7 at the concrete DATA delivery. -/
theorem C7_witness :
    c7Result.stream.rl_window = c7Stream.rl_window
    ∧ c7Result.frames = []
    ∧ (c7Stream.rl_window ≤ 2 ^ 31 - 1 →
        c7Result.stream.rl_window ≤ 2 ^ 31 - 1) :=
  C7_amended c7Stream (.raw 30 10) false c7Result (by decide)

/-! ### Claim C8 -/

/-- A stream that has observed no frames yet and has no bound request
(e.g. a pushed stream, or one whose request was already torn down). -/
def c8Stream : Stream :=
  { streamid := 2, status := .OPEN, lr_window := 65535, rl_window := 65535
    data := { request := none, response_agg := none }
    new_reserved_stream := false }

/-- Claim C8 names a real property the code intends (the processor
asserts `response_agg != NULL` and both handlers immediately append to
it), but the code breaks it: when no request is bound,
`stream_setup_response` returns before storing the freshly created
aggregate, so `response_agg` stays NULL and the handlers' unconditional
`serf_bucket_aggregate_append(stream->data->response_agg, ...)`
dereferences NULL (modelled as the `none` outcome) instead of returning
with a non-null pipeline. -/
theorem C8_code_bug :
    (stream_setup_response c8Stream).data.response_agg = none
    ∧ serf_http2__stream_handle_hpack c8Stream (.raw 1 4)
        HTTP2_FRAME_TYPE_HEADERS false = none
    ∧ serf_http2__stream_handle_data c8Stream (.raw 2 4) false = none := by
  decide

/-! ### Claim C9 -/

/-- Claim C9 rendered over the embedding: when `serf__setup_request`
fails for the head unwritten request, the error is surfaced, the
connection queues and the frames are untouched, and the stream is left
entirely unchanged — in particular with no request bound. -/
def C9_claim (stream : Stream) (conn : Conn)
    (su : Request → Apr × Request) (hc : Request → Apr × Bucket) : Prop :=
  ∀ request rest, conn.unwritten_reqs = request :: rest →
    request.req_bkt = none →
    (su request).1 ≠ .SUCCESS →
    (serf_http2__stream_setup_next_request stream conn su hc).status
        = (su request).1
    ∧ (serf_http2__stream_setup_next_request stream conn su hc).conn = conn
    ∧ (serf_http2__stream_setup_next_request stream conn su hc).frames = []
    ∧ (serf_http2__stream_setup_next_request stream conn su hc).stream
        = stream

/-- An unprepared request (no request bucket yet). -/
def c9Request : Request :=
  { rid := 2, req_bkt := none, resp_bkt := none, body := none
    acceptor_result := .raw 20 0 }

/-- A connection whose head unwritten request is `c9Request`. -/
def c9Conn : Conn :=
  { unwritten_reqs := [c9Request], written_reqs := []
    nr_of_written_reqs := 0 }

/-- A fresh INIT stream with no request bound. -/
def c9Stream : Stream := serf_http2__stream_create (-1) 65535 65535

/-- Oracle for `serf__setup_request` that fails. -/
def c9Setup : Request → Apr × Request := fun q => (.ECODE 5, q)

/-- Oracle for `serf__bucket_hpack_create_from_request` (never reached on
the failing path). -/
def c9Hpack : Request → Apr × Bucket := fun _ => (.SUCCESS, .raw 21 0)

/-- Claim C9 is false on the code: `stream->data->request = request` is
executed before request preparation is attempted, so on a preparation
failure the stream does not stay unchanged — the request is already
bound. -/
theorem C9_counterexample : ¬ C9_claim c9Stream c9Conn c9Setup c9Hpack := by
  intro h
  simp only [C9_claim] at h
  obtain ⟨-, -, -, hs⟩ := h c9Request [] (by decide) (by decide) (by decide)
  exact absurd hs (by decide)

/-- Claim C9 (amended): when request preparation fails, the error status
is returned, no frame is enqueued, the connection's queues are untouched,
and the stream's status and id are unchanged — but the head request has
already been bound to the stream (`data->request` is set), rather than
staying unbound. -/
theorem C9_amended (stream : Stream) (conn : Conn)
    (su : Request → Apr × Request) (hc : Request → Apr × Bucket)
    (request : Request) (rest : List Request)
    (hq : conn.unwritten_reqs = request :: rest)
    (hb : request.req_bkt = none)
    (hf : (su request).1 ≠ .SUCCESS) :
    (serf_http2__stream_setup_next_request stream conn su hc).status
        = (su request).1
    ∧ (serf_http2__stream_setup_next_request stream conn su hc).conn = conn
    ∧ (serf_http2__stream_setup_next_request stream conn su hc).frames = []
    ∧ (serf_http2__stream_setup_next_request stream conn su hc).stream.status
        = stream.status
    ∧ (serf_http2__stream_setup_next_request
        stream conn su hc).stream.streamid = stream.streamid
    ∧ (serf_http2__stream_setup_next_request
          stream conn su hc).stream.data.request = some (su request).2 := by
  refine ⟨?_, ?_, ?_, ?_, ?_, ?_⟩ <;>
    simp [serf_http2__stream_setup_next_request, hq, hb, hf]

/-- Witness for the amended C9 at the concrete failing preparation. -/
theorem C9_witness :
    (serf_http2__stream_setup_next_request
          c9Stream c9Conn c9Setup c9Hpack).status = (c9Setup c9Request).1
    ∧ (serf_http2__stream_setup_next_request
          c9Stream c9Conn c9Setup c9Hpack).conn = c9Conn
    ∧ (serf_http2__stream_setup_next_request
          c9Stream c9Conn c9Setup c9Hpack).frames = []
    ∧ (serf_http2__stream_setup_next_request
          c9Stream c9Conn c9Setup c9Hpack).stream.status = c9Stream.status
    ∧ (serf_http2__stream_setup_next_request
          c9Stream c9Conn c9Setup c9Hpack).stream.streamid
        = c9Stream.streamid
    ∧ (serf_http2__stream_setup_next_request
          c9Stream c9Conn c9Setup c9Hpack).stream.data.request
        = some (c9Setup c9Request).2 :=
  C9_amended c9Stream c9Conn c9Setup c9Hpack c9Request []
    (by decide) (by decide) (by decide)

/-- Witness for C6 at a concrete parent/child pair. -/
theorem C6_witness :
    (stream_promise_done c6Parent c6Child).frames
        = [.rstStream c6Child.streamid SERF_ERROR_HTTP2_REFUSED_STREAM]
    ∧ (stream_promise_done c6Parent c6Child).parent
        = { c6Parent with new_reserved_stream := false }
    ∧ (stream_promise_done c6Parent c6Child).status = .EOF
    ∧ (stream_promise_done c6Parent c6Child).child.status = .CLOSED :=
  C6_promise_done c6Parent c6Child (by decide) (by decide) (by decide)

end Serf
